import Mathlib

/-!
Verification of the order/checkout workflow of the ecommerce-api repository.

The development shallowly embeds the order service
(`internal/service/interfaces.go`: `orderService.CreateOrder`,
`UpdateOrderStatus`, `ProcessPayment`, `CancelOrder`, `GetOrderAnalytics`,
`isValidStatusTransition`) and the repository queries it relies on
(`internal/repository/product_repository.go`).  The catalog and order stores
are modelled as an explicit in-memory state (association lists keyed by the
numeric ids), per the collaborator contracts of the spec: `GetProduct`,
`UpdateStock`, `CreateOrder`, `GetOrder`, `UpdateStatus` are total and
deterministic.  The payment gateway and the one repository fetch whose error
the source discards are modelled as explicit oracles, so that failing
executions are expressible.  Go `float64` money is modelled as `ℚ` (the
workflow only adds and multiplies; the accumulation order is immaterial over
`ℚ`), Go `int` as `Int`, Go `uint` ids as `Nat`.
-/

deriving instance DecidableEq for Except

namespace Ecommerce

/-- Order status, from `models.OrderStatus` (`internal/models`, order model):
pending, confirmed, processing, shipped, delivered, cancelled, refunded. -/
inductive OrderStatus where
  | pending
  | confirmed
  | processing
  | shipped
  | delivered
  | cancelled
  | refunded
  deriving DecidableEq

/-- User role, from `models.UserRole`: customer, seller, admin. -/
inductive UserRole where
  | customer
  | seller
  | admin
  deriving DecidableEq

/-- Payment method, from `models.PaymentMethod`. -/
inductive PaymentMethod where
  | card
  | paypal
  | bank
  | cash
  deriving DecidableEq

/-- Product, from `models.Product`: the fields the order workflow reads
(id, name, SKU, description, price, stock, active flag, seller id).  The
remaining catalog fields (images, SEO, physical properties, ...) are never
touched by the order service and are omitted. -/
structure Product where
  id : Nat
  name : String
  sku : String
  description : String
  price : ℚ
  stock : Int
  isActive : Bool
  sellerID : Nat
  deriving DecidableEq

/-- Order line item, from `models.OrderItem`: product reference, quantity,
unit/total price and the point-in-time product snapshot fields the service
fills in (`ProductImage` is always set to nil by `CreateOrder` and is
omitted). -/
structure OrderItem where
  productID : Nat
  quantity : Int
  unitPrice : ℚ
  totalPrice : ℚ
  productName : String
  productSKU : String
  productDescription : String
  deriving DecidableEq

/-- Order, from `models.Order`: the fields the workflow reads or writes.
`taxAmount`, `shippingAmount`, `discountAmount` carry the gorm column
default 0 (the service never sets them).  `createdAt` is the insertion
timestamp assigned by the store; the workflow never reads it except in the
analytics date filters, and the model fixes it to 0 at creation.  The
shipping-address snapshot strings are constant fillers in the source and are
not needed by any claim. -/
structure Order where
  id : Nat
  customerID : Nat
  status : OrderStatus
  totalAmount : ℚ
  subtotalAmount : ℚ
  taxAmount : ℚ
  shippingAmount : ℚ
  discountAmount : ℚ
  paymentMethod : PaymentMethod
  createdAt : Int
  orderItems : List OrderItem
  deriving DecidableEq

/-- One line of a create-order request, from `models.OrderItemRequest`. -/
structure OrderItemRequest where
  productID : Nat
  quantity : Int
  deriving DecidableEq

/-- Create-order request, from `models.CreateOrderRequest`. -/
structure CreateOrderRequest where
  items : List OrderItemRequest
  shippingAddress : String
  paymentMethod : PaymentMethod
  deriving DecidableEq

/-- The persistent store state: the products table and the orders table
(order items ride along inside their order, as they are created atomically
with it and are immutable afterwards). -/
structure State where
  products : List Product
  orders : List Order
  deriving DecidableEq

/-- Error taxonomy of the order service (spec §7).  The source returns
formatted error strings; each constructor carries exactly the data the
corresponding message interpolates.  `undefinedColumn` is the one store
error a query in scope deterministically raises (Postgres undefined_column,
carrying the unresolvable column reference); it reaches the caller wrapped
by the service like any other store error. -/
inductive OrderError where
  | emptyCart
  | productNotFound : Nat → OrderError
  | productNotAvailable : String → OrderError
  | insufficientStock : String → Int → Int → OrderError
  | orderNotFound
  | unauthorized
  | invalidTransition : OrderStatus → OrderStatus → OrderError
  | notCancellable
  | orderNotPending
  | paymentProcessingFailed
  | paymentConfirmationFailed
  | undefinedColumn : String → OrderError
  deriving DecidableEq

/-- Catalog store `GetProduct(id)`: first products row with the given id. -/
def getProduct (st : State) (id : Nat) : Option Product :=
  st.products.find? (fun p => p.id == id)

/-- Order store `GetOrder(id)`: first orders row with the given id. -/
def getOrder (st : State) (id : Nat) : Option Order :=
  st.orders.find? (fun o => o.id == id)

/-- Catalog store `UpdateStock(id, stock)`
(`productRepository.UpdateStock`: UPDATE products SET stock WHERE id). -/
def updateStock (st : State) (id : Nat) (stock : Int) : State :=
  { st with products :=
      st.products.map (fun p => if p.id == id then { p with stock := stock } else p) }

/-- Order store `Create(order)` (`orderRepository.Create`): inserts the row. -/
def addOrder (st : State) (o : Order) : State :=
  { st with orders := st.orders ++ [o] }

/-- Order store `UpdateStatus(id, status)` (`orderRepository.UpdateStatus`:
UPDATE orders SET status WHERE id). -/
def setOrderStatus (st : State) (id : Nat) (status : OrderStatus) : State :=
  { st with orders :=
      st.orders.map (fun o => if o.id == id then { o with status := status } else o) }

/-- The primary key the store assigns to a newly inserted order: any id
fresh for the orders table (modelled as one more than the largest id in
use). -/
def nextOrderId (st : State) : Nat :=
  st.orders.foldr (fun o acc => max (o.id + 1) acc) 1

/-- Transition table of the order status machine, translated clause by
clause from `isValidStatusTransition` (`internal/service/interfaces.go`).
`refunded` has no entry in the source map, so the lookup fails and every
transition out of it is rejected; `delivered` and `cancelled` map to the
empty list. -/
def isValidStatusTransition (fromStatus toStatus : OrderStatus) : Bool :=
  match fromStatus with
  | .pending => toStatus == .confirmed || toStatus == .cancelled
  | .confirmed => toStatus == .processing || toStatus == .cancelled
  | .processing => toStatus == .shipped || toStatus == .cancelled
  | .shipped => toStatus == .delivered
  | .delivered => false
  | .cancelled => false
  | .refunded => false

/-- Validation and pricing loop of `orderService.CreateOrder`: for each
requested line, fetch the product; fail if it is missing, inactive, or has
stock below the requested quantity; otherwise price the line from the
current catalog price and snapshot the product fields.  The source
accumulates the running total left to right with `+=`; over `ℚ` the right
fold below computes the same sum. -/
def validateAndBuildItems (st : State) :
    List OrderItemRequest → Except OrderError (List OrderItem × ℚ)
  | [] => .ok ([], 0)
  | item :: rest =>
    match getProduct st item.productID with
    | none => .error (.productNotFound item.productID)
    | some product =>
      if !product.isActive then
        .error (.productNotAvailable product.name)
      else if product.stock < item.quantity then
        .error (.insufficientStock product.name product.stock item.quantity)
      else
        let itemTotal : ℚ := product.price * (item.quantity : ℚ)
        match validateAndBuildItems st rest with
        | .error e => .error e
        | .ok (restItems, restTotal) =>
          .ok ({ productID := item.productID, quantity := item.quantity,
                 unitPrice := product.price, totalPrice := itemTotal,
                 productName := product.name, productSKU := product.sku,
                 productDescription := product.description } :: restItems,
               itemTotal + restTotal)

/-- Outcome of the post-persist stock-decrement loop: either it ran to
completion, or it dereferenced the nil product returned by a failed fetch. -/
inductive StockLoopOutcome where
  | done : State → StockLoopOutcome
  | nilDereference : StockLoopOutcome
  deriving DecidableEq

/-- Stock-decrement loop of `orderService.CreateOrder`, after the order is
persisted.  The source re-fetches each product with
`product, _ := s.productRepo.GetByID(ctx, item.ProductID)` — the error is
discarded — and immediately reads `product.Stock`.  `fetchFails` is the
oracle saying whether the repository call errors for a given product id at
this point; when it errors (or the row is absent) the returned pointer is
nil and the `product.Stock` read is a nil dereference, reached before the
log-and-continue branch that only guards `UpdateStock`.  A failing
`UpdateStock` is logged and skipped in the source; the store model's update
is total, so that branch carries no state change to model. -/
def stockDecrementLoop (fetchFails : Nat → Bool) (st : State) :
    List OrderItemRequest → StockLoopOutcome
  | [] => .done st
  | item :: rest =>
    if fetchFails item.productID then
      .nilDereference
    else
      match getProduct st item.productID with
      | none => .nilDereference
      | some product =>
        stockDecrementLoop fetchFails
          (updateStock st item.productID (product.stock - item.quantity)) rest

/-- Result of `orderService.CreateOrder`: a persisted order and the
resulting store state, an error with the store state unchanged (every error
return in the source happens before any write), or the nil dereference of the
stock-decrement loop. -/
inductive CreateOrderResult where
  | ok : State → Order → CreateOrderResult
  | err : State → OrderError → CreateOrderResult
  | nilDereference : CreateOrderResult
  deriving DecidableEq

/-- Whether a `CreateOrderResult` is the nil dereference. -/
def CreateOrderResult.isNilDereference : CreateOrderResult → Bool
  | .nilDereference => true
  | _ => false

/-- `orderService.CreateOrder`: reject an empty item list; validate and
price every line; build the order (status pending, total = subtotal = the
accumulated sum, tax/shipping/discount at their zero column defaults, unit
prices from the current catalog — never from the client); persist it; then
run the best-effort stock-decrement loop. -/
def createOrder (fetchFails : Nat → Bool) (st : State) (req : CreateOrderRequest)
    (userID : Nat) : CreateOrderResult :=
  if req.items.isEmpty then .err st .emptyCart
  else
    match validateAndBuildItems st req.items with
    | .error e => .err st e
    | .ok (orderItems, totalAmount) =>
      let order : Order :=
        { id := nextOrderId st, customerID := userID, status := .pending,
          totalAmount := totalAmount, subtotalAmount := totalAmount,
          taxAmount := 0, shippingAmount := 0, discountAmount := 0,
          paymentMethod := req.paymentMethod, createdAt := 0,
          orderItems := orderItems }
      let st1 := addOrder st order
      match stockDecrementLoop fetchFails st1 req.items with
      | .done st2 => .ok st2 order
      | .nilDereference => .nilDereference

/-- Seller check of `UpdateOrderStatus`: does at least one order item
reference a product owned by this user?  (The source skips items whose
product fetch errors: `if err == nil && product.SellerID == userID`.) -/
def hasSellerItem (st : State) (order : Order) (userID : Nat) : Bool :=
  order.orderItems.any fun item =>
    match getProduct st item.productID with
    | some product => product.sellerID == userID
    | none => false

/-- Authorization gate of `UpdateOrderStatus`, folding the source's nested
early returns: admins always pass; a seller passes when some item's product
is theirs; everyone else is rejected. -/
def authorizedForStatusUpdate (st : State) (order : Order) (userID : Nat)
    (userRole : UserRole) : Bool :=
  userRole == .admin || (userRole == .seller && hasSellerItem st order userID)

/-- `orderService.UpdateOrderStatus`: load the order, authorize the actor,
validate the transition against the table, then persist the new status
only. -/
def updateOrderStatus (st : State) (id : Nat) (status : OrderStatus) (userID : Nat)
    (userRole : UserRole) : State × Except OrderError Unit :=
  match getOrder st id with
  | none => (st, .error .orderNotFound)
  | some order =>
    if !authorizedForStatusUpdate st order userID userRole then
      (st, .error .unauthorized)
    else if !isValidStatusTransition order.status status then
      (st, .error (.invalidTransition order.status status))
    else
      (setOrderStatus st id status, .ok ())

/-- Payment gateway oracle (`payment.Service`): the outcome of
`CreatePaymentIntent` for this request (`none` models a gateway error) and
the outcome of `ConfirmPayment` per intent id. -/
structure PaymentGateway where
  createPaymentIntent : Option String
  confirmPayment : String → Bool

/-- Payment response, from `models.PaymentResponse`. -/
structure PaymentResponse where
  transactionID : String
  status : String
  amount : ℚ
  deriving DecidableEq

/-- `orderService.ProcessPayment`: the order must be pending; create then
confirm a payment intent; only after both gateway calls succeed is the
status written, directly to confirmed, with no authorization or
transition-table check. -/
def processPayment (gw : PaymentGateway) (st : State) (orderID : Nat) :
    State × Except OrderError PaymentResponse :=
  match getOrder st orderID with
  | none => (st, .error .orderNotFound)
  | some order =>
    if order.status != .pending then
      (st, .error .orderNotPending)
    else
      match gw.createPaymentIntent with
      | none => (st, .error .paymentProcessingFailed)
      | some paymentIntentID =>
        if !gw.confirmPayment paymentIntentID then
          (st, .error .paymentConfirmationFailed)
        else
          (setOrderStatus st orderID .confirmed,
           .ok { transactionID := paymentIntentID, status := "confirmed",
                 amount := order.totalAmount })

/-- Stock-restoration loop of `orderService.CancelOrder`: for each order
item, fetch the product; when the fetch succeeds, write back stock plus the
item's quantity (best effort: an item whose fetch fails is skipped — here
the fetch fails exactly when the row is absent). -/
def restoreStock (st : State) : List OrderItem → State
  | [] => st
  | item :: rest =>
    match getProduct st item.productID with
    | none => restoreStock st rest
    | some product =>
      restoreStock (updateStock st item.productID (product.stock + item.quantity)) rest

/-- `orderService.CancelOrder`: load the order; only the owning customer or
an admin may cancel; only pending or confirmed orders are cancellable;
restore each item's stock, then set the status to cancelled. -/
def cancelOrder (st : State) (id : Nat) (userID : Nat) (userRole : UserRole) :
    State × Except OrderError Unit :=
  match getOrder st id with
  | none => (st, .error .orderNotFound)
  | some order =>
    if userRole != .admin && order.customerID != userID then
      (st, .error .unauthorized)
    else if order.status != .pending && order.status != .confirmed then
      (st, .error .notCancellable)
    else
      (setOrderStatus (restoreStock st order.orderItems) id .cancelled, .ok ())

/-- Date filter of the revenue queries: applied only when both bounds are
supplied (`if startDate != nil && endDate != nil`), as SQL BETWEEN. -/
def inDateRange (startDate endDate : Option Int) (t : Int) : Bool :=
  match startDate, endDate with
  | some s, some e => s ≤ t && t ≤ e
  | _, _ => true

/-- `orderRepository.Count`: row count of the orders table. -/
def countOrders (st : State) : Nat :=
  st.orders.length

/-- `orderRepository.CountByStatus`: orders with the given status — no
seller and no date condition. -/
def countByStatus (st : State) (status : OrderStatus) : Nat :=
  (st.orders.filter (fun o => o.status == status)).length

/-- `orderRepository.GetTotalRevenue`: SUM(total_amount) over delivered
orders, date-bounded only when both bounds are given. -/
def getTotalRevenue (st : State) (startDate endDate : Option Int) : ℚ :=
  ((st.orders.filter (fun o =>
      o.status == .delivered && inDateRange startDate endDate o.createdAt)).map
    (fun o => o.totalAmount)).sum

/-- The order_items table joined to its orders: one row per line item of
every order, as produced by JOIN orders ON order_items.order_id = orders.id. -/
def orderItemsTable (st : State) : List (Order × OrderItem) :=
  st.orders.flatMap (fun o => o.orderItems.map (fun item => (o, item)))

/-- The JOIN of an order item to the products table on its product id,
keeping the rows whose product row exists and belongs to the seller. -/
def itemBelongsToSeller (st : State) (sellerID : Nat) (item : OrderItem) : Bool :=
  match getProduct st item.productID with
  | some p => p.sellerID == sellerID
  | none => false

/-- Columns of the order_items table, from migration
`004_create_order_items.sql` (the gorm `OrderItem` model maps to the same
names): there is a `unit_price` and a `total_price`, and no column named
`price`. -/
def orderItemsColumns : List String :=
  ["id", "order_id", "product_id", "quantity", "unit_price", "total_price",
   "product_name", "product_sku", "product_description", "product_image",
   "created_at", "updated_at", "deleted_at"]

/-- Row pipeline of the seller revenue query — the order_items table joined
to products (dropping rows whose product row is gone) and to orders, kept
when the product belongs to the seller and the order is delivered
(date-bounded only when both bounds are given) — summing line price times
quantity with the line price read from the `unit_price` column the schema
actually defines.  This is the sum the query computes once its SELECT
references an existing line-price column; the shipped query never reaches
it (see `getRevenueBySellerID`). -/
def sellerItemsRevenueSum (st : State) (sellerID : Nat)
    (startDate endDate : Option Int) : ℚ :=
  ((orderItemsTable st).filter (fun r =>
      itemBelongsToSeller st sellerID r.2
      && r.1.status == .delivered
      && inDateRange startDate endDate r.1.createdAt)).foldl
    (fun total r => total + r.2.unitPrice * (r.2.quantity : ℚ)) 0

/-- `orderRepository.GetRevenueBySellerID`: the query selects
COALESCE(SUM(order_items.price * order_items.quantity), 0) over the joins
and filters of `sellerItemsRevenueSum`.  Postgres resolves the referenced
columns against the schema before executing: `order_items.quantity`
resolves, `order_items.price` does not (`orderItemsColumns` has only
`unit_price` and `total_price`), so every execution — whatever the rows —
fails with undefined_column and the row pipeline is never evaluated. -/
def getRevenueBySellerID (st : State) (sellerID : Nat)
    (startDate endDate : Option Int) : Except OrderError ℚ :=
  if "price" ∈ orderItemsColumns then
    .ok (sellerItemsRevenueSum st sellerID startDate endDate)
  else
    .error (.undefinedColumn "order_items.price")

/-- Analytics payload, from `models.OrderAnalytics`: total revenue, total
order count, and per-status counts for pending, confirmed, shipped,
delivered and cancelled (the struct has no field for processing or
refunded). -/
structure OrderAnalytics where
  totalRevenue : ℚ
  totalOrders : Nat
  pendingOrders : Nat
  confirmedOrders : Nat
  shippedOrders : Nat
  deliveredOrders : Nat
  cancelledOrders : Nat
  deriving DecidableEq

/-- `orderService.GetOrderAnalytics`: fetch revenue — seller-scoped exactly
when a seller id is supplied — and return its error if it fails (the source
wraps it: failed to get revenue); otherwise assemble the payload from the
unscoped repository counts, whose own errors the source discards with `_`
(the count queries reference only valid columns and the store model keeps
them total). -/
def getOrderAnalytics (st : State) (sellerID : Option Nat)
    (startDate endDate : Option Int) : Except OrderError OrderAnalytics :=
  match (match sellerID with
         | some sid => getRevenueBySellerID st sid startDate endDate
         | none => .ok (getTotalRevenue st startDate endDate)) with
  | .error e => .error e
  | .ok totalRevenue =>
    .ok { totalRevenue := totalRevenue,
          totalOrders := countOrders st,
          pendingOrders := countByStatus st .pending,
          confirmedOrders := countByStatus st .confirmed,
          shippedOrders := countByStatus st .shipped,
          deliveredOrders := countByStatus st .delivered,
          cancelledOrders := countByStatus st .cancelled }

/-! Store lemmas: how `find?`-based reads interact with the map-based
updates and the append-based insert. -/

theorem find?_stockMap_self {l : List Product} {id : Nat} {p : Product} (n : Int)
    (h : l.find? (fun q => q.id == id) = some p) :
    (l.map (fun q => if q.id == id then { q with stock := n } else q)).find?
      (fun q => q.id == id) = some { p with stock := n } := by
  induction l with
  | nil => simp [List.find?] at h
  | cons a l ih =>
    by_cases ha : (a.id == id) = true
    · rw [List.find?_cons_of_pos (p := fun (q : Product) => q.id == id) _ ha] at h
      cases h
      simp only [List.map_cons, if_pos ha]
      exact List.find?_cons_of_pos (p := fun (q : Product) => q.id == id) _ ha
    · rw [List.find?_cons_of_neg (p := fun (q : Product) => q.id == id) _ ha] at h
      simp only [List.map_cons, if_neg ha]
      rw [List.find?_cons_of_neg (p := fun (q : Product) => q.id == id) _ ha]
      exact ih h

theorem getProduct_updateStock_self {st : State} {id : Nat} {p : Product} (n : Int)
    (h : getProduct st id = some p) :
    getProduct (updateStock st id n) id = some { p with stock := n } :=
  find?_stockMap_self n h

theorem find?_statusMap_self {l : List Order} {id : Nat} {o : Order} (s : OrderStatus)
    (h : l.find? (fun q => q.id == id) = some o) :
    (l.map (fun q => if q.id == id then { q with status := s } else q)).find?
      (fun q => q.id == id) = some { o with status := s } := by
  induction l with
  | nil => simp [List.find?] at h
  | cons a l ih =>
    by_cases ha : (a.id == id) = true
    · rw [List.find?_cons_of_pos (p := fun (q : Order) => q.id == id) _ ha] at h
      cases h
      simp only [List.map_cons, if_pos ha]
      exact List.find?_cons_of_pos (p := fun (q : Order) => q.id == id) _ ha
    · rw [List.find?_cons_of_neg (p := fun (q : Order) => q.id == id) _ ha] at h
      simp only [List.map_cons, if_neg ha]
      rw [List.find?_cons_of_neg (p := fun (q : Order) => q.id == id) _ ha]
      exact ih h

theorem getOrder_setOrderStatus_self {st : State} {id : Nat} {o : Order}
    (s : OrderStatus) (h : getOrder st id = some o) :
    getOrder (setOrderStatus st id s) id = some { o with status := s } :=
  find?_statusMap_self s h

theorem getProduct_addOrder (st : State) (o : Order) (id : Nat) :
    getProduct (addOrder st o) id = getProduct st id := rfl

theorem getProduct_setOrderStatus (st : State) (oid : Nat) (s : OrderStatus) (id : Nat) :
    getProduct (setOrderStatus st oid s) id = getProduct st id := rfl

theorem getOrder_updateStock (st : State) (pid : Nat) (n : Int) (id : Nat) :
    getOrder (updateStock st pid n) id = getOrder st id := rfl

theorem find?_append_fresh {l : List Order} {o : Order}
    (h : ∀ o' ∈ l, o'.id ≠ o.id) :
    (l ++ [o]).find? (fun q => q.id == o.id) = some o := by
  induction l with
  | nil => simp
  | cons a l ih =>
    have ha : ¬((a.id == o.id) = true) := by
      simpa using h a (List.mem_cons_self a l)
    rw [List.cons_append, List.find?_cons_of_neg (p := fun (q : Order) => q.id == o.id) _ ha]
    exact ih (fun o' ho' => h o' (List.mem_cons_of_mem a ho'))

theorem getOrder_addOrder_fresh {st : State} {o : Order}
    (h : ∀ o' ∈ st.orders, o'.id ≠ o.id) :
    getOrder (addOrder st o) o.id = some o :=
  find?_append_fresh h

theorem nextOrderId_fresh (st : State) : ∀ o' ∈ st.orders, o'.id < nextOrderId st := by
  show ∀ o' ∈ st.orders, o'.id < st.orders.foldr (fun o acc => max (o.id + 1) acc) 1
  induction st.orders with
  | nil => intro o' ho'; cases ho'
  | cons a l ih =>
    intro o' ho'
    rcases List.mem_cons.mp ho' with h | h
    · subst h
      exact lt_of_lt_of_le (Nat.lt_succ_self _) (le_max_left _ _)
    · exact lt_of_lt_of_le (ih o' h) (le_max_right _ _)

theorem find?_isSome_map_id_preserving {l : List Product} {f : Product → Product}
    (hf : ∀ p, (f p).id = p.id) (id : Nat) :
    ((l.map f).find? (fun q => q.id == id)).isSome
      = (l.find? (fun q => q.id == id)).isSome := by
  induction l with
  | nil => rfl
  | cons a l ih =>
    by_cases ha : (a.id == id) = true
    · have hfa : ((f a).id == id) = true := by rw [hf a]; exact ha
      simp only [List.map_cons]
      rw [List.find?_cons_of_pos (p := fun (q : Product) => q.id == id) _ hfa,
        List.find?_cons_of_pos (p := fun (q : Product) => q.id == id) _ ha]
      rfl
    · have hfa : ¬(((f a).id == id) = true) := by rw [hf a]; exact ha
      simp only [List.map_cons]
      rw [List.find?_cons_of_neg (p := fun (q : Product) => q.id == id) _ hfa,
        List.find?_cons_of_neg (p := fun (q : Product) => q.id == id) _ ha]
      exact ih

theorem getProduct_isSome_updateStock (st : State) (pid : Nat) (n : Int) (id : Nat) :
    (getProduct (updateStock st pid n) id).isSome = (getProduct st id).isSome :=
  find?_isSome_map_id_preserving (fun p => by by_cases h : (p.id == pid) = true <;> simp [h]) id

/-! Spec-side artifacts and concrete fixtures. -/

/-- Adjacency table of spec section 4.2, written out as the explicit list of
permitted (from, to) pairs: pending to confirmed or cancelled, confirmed to
processing or cancelled, processing to shipped or cancelled, shipped to
delivered; delivered and cancelled terminal, refunded absent. -/
def specTransitionTable : List (OrderStatus × OrderStatus) :=
  [(.pending, .confirmed), (.pending, .cancelled),
   (.confirmed, .processing), (.confirmed, .cancelled),
   (.processing, .shipped), (.processing, .cancelled),
   (.shipped, .delivered)]

theorem isValidStatusTransition_iff_mem_table (s t : OrderStatus) :
    isValidStatusTransition s t = true ↔ (s, t) ∈ specTransitionTable := by
  cases s <;> cases t <;> decide

/-- Concrete catalog product for the concrete scenarios: a 10-unit-price
product with 5 in stock, owned by seller 2. -/
def widget : Product :=
  { id := 1, name := "Widget", sku := "W-1", description := "A widget",
    price := 10, stock := 5, isActive := true, sellerID := 2 }

/-- Concrete pending order of customer 3 over one widget. -/
def pendingOrderW : Order :=
  { id := 1, customerID := 3, status := .pending, totalAmount := 10,
    subtotalAmount := 10, taxAmount := 0, shippingAmount := 0,
    discountAmount := 0, paymentMethod := .card, createdAt := 0,
    orderItems := [{ productID := 1, quantity := 1, unitPrice := 10,
                     totalPrice := 10, productName := "Widget",
                     productSKU := "W-1", productDescription := "A widget" }] }

/-- Store holding the widget and the pending order. -/
def stPending : State := { products := [widget], orders := [pendingOrderW] }

/-- Store holding the widget and the same order already delivered. -/
def stDelivered : State :=
  { products := [widget], orders := [{ pendingOrderW with status := .delivered }] }

/-- Gateway on which both calls succeed. -/
def gwOk : PaymentGateway :=
  { createPaymentIntent := some "pi_1", confirmPayment := fun _ => true }

/-- Gateway on which intent creation fails. -/
def gwNoIntent : PaymentGateway :=
  { createPaymentIntent := none, confirmPayment := fun _ => false }

/-- Gateway on which intent creation succeeds and confirmation fails. -/
def gwNoConfirm : PaymentGateway :=
  { createPaymentIntent := some "pi_1", confirmPayment := fun _ => false }

/-- C1: on an existing order, for an authorized actor, `UpdateOrderStatus`
succeeds — persisting exactly the requested status and touching nothing
else — precisely when the (current, requested) pair is in the section 4.2
adjacency table, and for every pair outside the table (self-transitions and
every pair involving refunded included) it fails with
`InvalidTransitionError` naming the rejected pair. -/
theorem c1_updateOrderStatus_matches_table (st : State) (id : Nat) (o : Order)
    (toStatus : OrderStatus) (userID : Nat) (userRole : UserRole)
    (hord : getOrder st id = some o)
    (hauth : authorizedForStatusUpdate st o userID userRole = true) :
    ((o.status, toStatus) ∈ specTransitionTable →
      updateOrderStatus st id toStatus userID userRole =
        (setOrderStatus st id toStatus, .ok ()) ∧
      getOrder (setOrderStatus st id toStatus) id = some { o with status := toStatus }) ∧
    ((o.status, toStatus) ∉ specTransitionTable →
      updateOrderStatus st id toStatus userID userRole =
        (st, .error (.invalidTransition o.status toStatus))) := by
  constructor
  · intro hmem
    have hvalid : isValidStatusTransition o.status toStatus = true :=
      (isValidStatusTransition_iff_mem_table _ _).mpr hmem
    refine ⟨?_, getOrder_setOrderStatus_self toStatus hord⟩
    unfold updateOrderStatus
    rw [hord]
    simp [hauth, hvalid]
  · intro hmem
    have hvalid : ¬(isValidStatusTransition o.status toStatus = true) :=
      fun h => hmem ((isValidStatusTransition_iff_mem_table _ _).mp h)
    unfold updateOrderStatus
    rw [hord]
    simp [hauth, hvalid]

/-- C1 witness: an admin moving the concrete pending order to confirmed
succeeds, and to refunded is rejected with the named pair. -/
theorem c1_witness :
    updateOrderStatus stPending 1 .confirmed 9 .admin =
      (setOrderStatus stPending 1 .confirmed, .ok ()) ∧
    updateOrderStatus stPending 1 .refunded 9 .admin =
      (stPending, .error (.invalidTransition .pending .refunded)) := by
  have h1 := c1_updateOrderStatus_matches_table stPending 1 pendingOrderW .confirmed
    9 .admin (by decide) (by decide)
  have h2 := c1_updateOrderStatus_matches_table stPending 1 pendingOrderW .refunded
    9 .admin (by decide) (by decide)
  exact ⟨(h1.1 (by decide)).1, h2.2 (by decide)⟩

/-- C4: cancelling an order whose current status is neither pending nor
confirmed, as the owning customer or an admin, fails with
`NotCancellableError`, and the returned store state is the unchanged input
state — so no product stock is mutated and the order status stands. -/
theorem c4_cancel_not_cancellable (st : State) (id : Nat) (o : Order)
    (userID : Nat) (userRole : UserRole)
    (hord : getOrder st id = some o)
    (hwho : userRole = .admin ∨ o.customerID = userID)
    (hpend : o.status ≠ .pending) (hconf : o.status ≠ .confirmed) :
    cancelOrder st id userID userRole = (st, .error .notCancellable) := by
  unfold cancelOrder
  rw [hord]
  have hauth : (userRole != .admin && o.customerID != userID) = false := by
    rcases hwho with h | h <;> simp [h]
  have hstat : (o.status != .pending && o.status != .confirmed) = true := by
    simp [hpend, hconf]
  simp [hauth, hstat]

/-- C4 witness: the owning customer cancelling the delivered concrete order
gets `NotCancellableError` and the state is unchanged. -/
theorem c4_witness :
    cancelOrder stDelivered 1 3 .customer = (stDelivered, .error .notCancellable) :=
  c4_cancel_not_cancellable stDelivered 1 { pendingOrderW with status := .delivered }
    3 .customer (by decide) (Or.inr (by decide)) (by decide) (by decide)

/-- C6: `ProcessPayment` off a pending order fails with
`OrderNotPendingError`; on a pending order a failing intent creation or a
failing confirmation surfaces that error with the store state unchanged
(the definition makes exactly one gateway interaction — no retry); when
both gateway calls succeed the status is written directly to confirmed —
the call takes no actor and consults neither the authorization gate nor the
transition table. -/
theorem c6_processPayment (gw : PaymentGateway) (st : State) (id : Nat) (o : Order)
    (hord : getOrder st id = some o) :
    (o.status ≠ .pending →
      processPayment gw st id = (st, .error .orderNotPending)) ∧
    (o.status = .pending → gw.createPaymentIntent = none →
      processPayment gw st id = (st, .error .paymentProcessingFailed)) ∧
    (∀ intentID, o.status = .pending → gw.createPaymentIntent = some intentID →
      gw.confirmPayment intentID = false →
      processPayment gw st id = (st, .error .paymentConfirmationFailed)) ∧
    (∀ intentID, o.status = .pending → gw.createPaymentIntent = some intentID →
      gw.confirmPayment intentID = true →
      processPayment gw st id =
        (setOrderStatus st id .confirmed,
         .ok { transactionID := intentID, status := "confirmed",
               amount := o.totalAmount }) ∧
      getOrder (setOrderStatus st id .confirmed) id =
        some { o with status := .confirmed }) := by
  refine ⟨?_, ?_, ?_, ?_⟩
  · intro hs
    unfold processPayment
    rw [hord]
    simp [hs]
  · intro hs hint
    unfold processPayment
    rw [hord]
    simp [hs, hint]
  · intro intentID hs hint hconf
    unfold processPayment
    rw [hord]
    simp [hs, hint, hconf]
  · intro intentID hs hint hconf
    refine ⟨?_, getOrder_setOrderStatus_self .confirmed hord⟩
    unfold processPayment
    rw [hord]
    simp [hs, hint, hconf]

/-- C6 witness: on the concrete store, payment on the delivered order is
rejected as not pending; on the pending order a gateway without intent
creation, then one without confirmation, fail leaving the state unchanged;
the fully working gateway confirms the order. -/
theorem c6_witness :
    processPayment gwOk stDelivered 1 = (stDelivered, .error .orderNotPending) ∧
    processPayment gwNoIntent stPending 1 =
      (stPending, .error .paymentProcessingFailed) ∧
    processPayment gwNoConfirm stPending 1 =
      (stPending, .error .paymentConfirmationFailed) ∧
    processPayment gwOk stPending 1 =
      (setOrderStatus stPending 1 .confirmed,
       .ok { transactionID := "pi_1", status := "confirmed", amount := 10 }) := by
  have hd := c6_processPayment gwOk stDelivered 1
    { pendingOrderW with status := .delivered } (by decide)
  have hni := c6_processPayment gwNoIntent stPending 1 pendingOrderW (by decide)
  have hnc := c6_processPayment gwNoConfirm stPending 1 pendingOrderW (by decide)
  have hok := c6_processPayment gwOk stPending 1 pendingOrderW (by decide)
  exact ⟨hd.1 (by decide), hni.2.1 rfl rfl,
    hnc.2.2.1 "pi_1" rfl rfl rfl, (hok.2.2.2 "pi_1" rfl rfl rfl).1⟩

/-! Properties of the validation and pricing loop. -/

theorem validateAndBuildItems_insufficient (st : State) (items : List OrderItemRequest)
    (hex : ∀ item ∈ items, ∃ p, getProduct st item.productID = some p ∧ p.isActive = true)
    (hfail : ∃ item ∈ items, ∃ p, getProduct st item.productID = some p ∧
      p.stock < item.quantity) :
    ∃ item ∈ items, ∃ p, getProduct st item.productID = some p ∧
      validateAndBuildItems st items =
        .error (.insufficientStock p.name p.stock item.quantity) ∧
      p.stock < item.quantity := by
  induction items with
  | nil =>
    obtain ⟨item, hmem, _⟩ := hfail
    cases hmem
  | cons item rest ih =>
    obtain ⟨p, hp, hact⟩ := hex item (List.mem_cons_self _ _)
    by_cases hs : p.stock < item.quantity
    · refine ⟨item, List.mem_cons_self _ _, p, hp, ?_, hs⟩
      unfold validateAndBuildItems
      rw [hp]
      simp [hact, hs]
    · obtain ⟨w, hwmem, pw, hpw, hws⟩ := hfail
      rcases List.mem_cons.mp hwmem with heq | hmemRest
      · subst heq
        rw [hp] at hpw
        cases hpw
        exact absurd hws hs
      · obtain ⟨w', hw'mem, pw', hpw', herr, hs'⟩ :=
          ih (fun i hi => hex i (List.mem_cons_of_mem _ hi))
            ⟨w, hmemRest, pw, hpw, hws⟩
        refine ⟨w', List.mem_cons_of_mem _ hw'mem, pw', hpw', ?_, hs'⟩
        unfold validateAndBuildItems
        rw [hp]
        simp [hact, hs, herr]

theorem validateAndBuildItems_ok (st : State) (items : List OrderItemRequest)
    (orderItems : List OrderItem) (total : ℚ)
    (h : validateAndBuildItems st items = .ok (orderItems, total)) :
    (∀ item ∈ orderItems,
       (∃ p, getProduct st item.productID = some p ∧ item.unitPrice = p.price) ∧
       item.totalPrice = item.unitPrice * (item.quantity : ℚ)) ∧
    total = (orderItems.map (fun i => i.unitPrice * (i.quantity : ℚ))).sum := by
  induction items generalizing orderItems total with
  | nil =>
    unfold validateAndBuildItems at h
    cases h
    exact ⟨fun i hi => absurd hi (List.not_mem_nil i), by simp⟩
  | cons item rest ih =>
    unfold validateAndBuildItems at h
    cases hp : getProduct st item.productID with
    | none => rw [hp] at h; simp only [] at h; cases h
    | some p =>
      rw [hp] at h
      simp only [] at h
      by_cases hact : p.isActive
      · simp only [hact, Bool.not_true, Bool.false_eq_true, if_false] at h
        by_cases hs : p.stock < item.quantity
        · rw [if_pos hs] at h
          cases h
        · rw [if_neg hs] at h
          cases hrest : validateAndBuildItems st rest with
          | error e => simp [hrest] at h
          | ok pr =>
            obtain ⟨restItems, restTotal⟩ := pr
            simp only [hrest] at h
            cases h
            obtain ⟨ihmem, ihsum⟩ := ih restItems restTotal hrest
            constructor
            · intro i hi
              rcases List.mem_cons.mp hi with heq | hmem
              · subst heq
                exact ⟨⟨p, hp, rfl⟩, rfl⟩
              · exact ihmem i hmem
            · simp [ihsum]
      · have hact' : p.isActive = false := eq_false_of_ne_true hact
        simp [hact'] at h

theorem validateAndBuildItems_ok_products_exist (st : State)
    (items : List OrderItemRequest) (orderItems : List OrderItem) (total : ℚ)
    (h : validateAndBuildItems st items = .ok (orderItems, total)) :
    ∀ item ∈ items, (getProduct st item.productID).isSome = true := by
  induction items generalizing orderItems total with
  | nil => intro i hi; cases hi
  | cons item rest ih =>
    unfold validateAndBuildItems at h
    cases hp : getProduct st item.productID with
    | none => rw [hp] at h; simp only [] at h; cases h
    | some p =>
      rw [hp] at h
      simp only [] at h
      by_cases hact : p.isActive
      · simp only [hact, Bool.not_true, Bool.false_eq_true, if_false] at h
        by_cases hs : p.stock < item.quantity
        · rw [if_pos hs] at h
          cases h
        · rw [if_neg hs] at h
          cases hrest : validateAndBuildItems st rest with
          | error e => simp [hrest] at h
          | ok pr =>
            intro i hi
            rcases List.mem_cons.mp hi with heq | hmem
            · subst heq
              rw [hp]
              rfl
            · exact ih pr.1 pr.2 (by rw [hrest]) i hmem
      · have hact' : p.isActive = false := eq_false_of_ne_true hact
        simp [hact'] at h

/-- C2: when every product referenced by the request exists and is active
but some line asks for more than that product's stock, `CreateOrder` fails
with `InsufficientStockError` carrying the offending product's name,
available stock and the requested quantity — and the returned store state
is the unchanged input state: no order row and no stock write. -/
theorem c2_insufficient_stock_rejects (fetchFails : Nat → Bool) (st : State)
    (req : CreateOrderRequest) (userID : Nat)
    (hex : ∀ item ∈ req.items, ∃ p, getProduct st item.productID = some p ∧
      p.isActive = true)
    (hfail : ∃ item ∈ req.items, ∃ p, getProduct st item.productID = some p ∧
      p.stock < item.quantity) :
    ∃ item ∈ req.items, ∃ p, getProduct st item.productID = some p ∧
      createOrder fetchFails st req userID =
        .err st (.insufficientStock p.name p.stock item.quantity) ∧
      p.stock < item.quantity := by
  obtain ⟨item, hmem, p, hp, herr, hs⟩ :=
    validateAndBuildItems_insufficient st req.items hex hfail
  refine ⟨item, hmem, p, hp, ?_, hs⟩
  have hne : req.items.isEmpty = false := by
    cases hi : req.items with
    | nil => rw [hi] at hmem; cases hmem
    | cons a l => rfl
  unfold createOrder
  simp [hne, herr]

/-- Store holding the widget alone, before any order. -/
def stWidget : State := { products := [widget], orders := [] }

/-- Request for one widget. -/
def reqOne : CreateOrderRequest :=
  { items := [{ productID := 1, quantity := 1 }], shippingAddress := "addr",
    paymentMethod := .card }

/-- Request for six widgets (more than the stock of five). -/
def reqSix : CreateOrderRequest :=
  { items := [{ productID := 1, quantity := 6 }], shippingAddress := "addr",
    paymentMethod := .card }

/-- The order `createOrder` builds from `reqOne` over `stWidget`. -/
def ordW : Order :=
  { id := 1, customerID := 3, status := .pending, totalAmount := 10,
    subtotalAmount := 10, taxAmount := 0, shippingAmount := 0,
    discountAmount := 0, paymentMethod := .card, createdAt := 0,
    orderItems := [{ productID := 1, quantity := 1, unitPrice := 10,
                     totalPrice := 10, productName := "Widget", productSKU := "W-1",
                     productDescription := "A widget" }] }

/-- The store after creating `ordW`: stock decremented to 4. -/
def stWidgetAfter : State :=
  { products := [{ widget with stock := 4 }], orders := [ordW] }

/-- C2 witness: requesting 6 widgets with 5 in stock is rejected with the
available-versus-requested data and the state is untouched. -/
theorem c2_witness :
    ∃ item ∈ reqSix.items,
      ∃ p, getProduct stWidget item.productID = some p ∧
        createOrder (fun _ => false) stWidget reqSix 3 =
          .err stWidget (.insufficientStock p.name p.stock item.quantity) ∧
        p.stock < item.quantity :=
  c2_insufficient_stock_rejects (fun _ => false) stWidget reqSix 3
    (fun item hi => ⟨widget, by
      rcases List.mem_cons.mp hi with heq | h
      · subst heq; exact ⟨by decide, rfl⟩
      · cases h⟩)
    ⟨{ productID := 1, quantity := 6 }, List.mem_cons_self _ _, widget,
      by decide, by decide⟩

/-- C3: every order `CreateOrder` reports as successfully created prices
each line from the current catalog price of its product — not from any
client-supplied figure, none exists in the request — sets each line's total
to unit price times quantity, and sets the order total to the sum of those
line totals, with subtotal equal to total and tax, shipping and discount at
zero. -/
theorem c3_totals_from_catalog (fetchFails : Nat → Bool) (st : State)
    (req : CreateOrderRequest) (userID : Nat) (st' : State) (order : Order)
    (h : createOrder fetchFails st req userID = .ok st' order) :
    (∀ item ∈ order.orderItems,
       (∃ p, getProduct st item.productID = some p ∧ item.unitPrice = p.price) ∧
       item.totalPrice = item.unitPrice * (item.quantity : ℚ)) ∧
    order.totalAmount =
      (order.orderItems.map (fun i => i.unitPrice * (i.quantity : ℚ))).sum ∧
    order.subtotalAmount = order.totalAmount ∧
    order.taxAmount = 0 ∧ order.shippingAmount = 0 ∧ order.discountAmount = 0 := by
  unfold createOrder at h
  by_cases he : req.items.isEmpty
  · simp [he] at h
  · rw [if_neg (by simp [he])] at h
    cases hv : validateAndBuildItems st req.items with
    | error e => simp [hv] at h
    | ok pr =>
      obtain ⟨orderItems, totalAmount⟩ := pr
      simp only [hv] at h
      cases hloop : stockDecrementLoop fetchFails
          (addOrder st
            { id := nextOrderId st, customerID := userID, status := .pending,
              totalAmount := totalAmount, subtotalAmount := totalAmount,
              taxAmount := 0, shippingAmount := 0, discountAmount := 0,
              paymentMethod := req.paymentMethod, createdAt := 0,
              orderItems := orderItems }) req.items with
      | done st2 =>
        rw [hloop] at h
        cases h
        obtain ⟨hmem, hsum⟩ := validateAndBuildItems_ok st req.items orderItems
          totalAmount hv
        exact ⟨hmem, hsum, rfl, rfl, rfl, rfl⟩
      | nilDereference =>
        rw [hloop] at h
        cases h

/-- C3 witness: creating an order for one widget produces a line priced at
the widget's catalog price 10, a line total 10, and an order with total =
subtotal = 10. -/
theorem c3_witness :
    (∀ item ∈ ordW.orderItems,
       (∃ p, getProduct stWidget item.productID = some p ∧
          item.unitPrice = p.price) ∧
       item.totalPrice = item.unitPrice * (item.quantity : ℚ)) ∧
    ordW.totalAmount =
      (ordW.orderItems.map (fun i => i.unitPrice * (i.quantity : ℚ))).sum ∧
    ordW.subtotalAmount = ordW.totalAmount :=
  have h := c3_totals_from_catalog (fun _ => false) stWidget reqOne 3
    stWidgetAfter ordW (by with_unfolding_all decide)
  ⟨h.1, h.2.1, h.2.2.1⟩

/-! Totality and failure of the stock-decrement loop. -/

theorem stockDecrementLoop_total (items : List OrderItemRequest) :
    ∀ st : State, (∀ item ∈ items, (getProduct st item.productID).isSome = true) →
    ∃ st', stockDecrementLoop (fun _ => false) st items = .done st' := by
  induction items with
  | nil => exact fun st _ => ⟨st, rfl⟩
  | cons item rest ih =>
    intro st hex
    have hh := hex item (List.mem_cons_self _ _)
    cases hp : getProduct st item.productID with
    | none => rw [hp] at hh; simp at hh
    | some p =>
      obtain ⟨st', hst'⟩ := ih (updateStock st item.productID (p.stock - item.quantity))
        (fun i hi => by
          rw [getProduct_isSome_updateStock]
          exact hex i (List.mem_cons_of_mem _ hi))
      refine ⟨st', ?_⟩
      unfold stockDecrementLoop
      simp only [Bool.false_eq_true, if_false]
      rw [hp]
      simp only []
      exact hst'

/-- C9: the stock-decrement loop of `CreateOrder` re-fetches each product
discarding the fetch error before dereferencing the result.  When every
re-fetch succeeds (oracle reports no failure; the requested products all
exist, which passing validation guarantees), the loop completes and the
call never reaches the nil dereference.  But the log-and-continue behaviour
is only conditional: a concrete execution whose re-fetch fails after the
order was persisted reaches the dereference of the nil product instead of
the logging branch. -/
theorem c9_discarded_fetch_error_nil_deref :
    (∀ (st : State) (req : CreateOrderRequest) (userID : Nat),
      (createOrder (fun _ => false) st req userID).isNilDereference = false) ∧
    createOrder (fun _ => true) stWidget reqOne 3 = .nilDereference := by
  constructor
  · intro st req userID
    unfold createOrder
    by_cases he : req.items.isEmpty
    · simp [he, CreateOrderResult.isNilDereference]
    · rw [if_neg (by simp [he])]
      cases hv : validateAndBuildItems st req.items with
      | error e =>
        simp [CreateOrderResult.isNilDereference]
      | ok pr =>
        obtain ⟨orderItems, totalAmount⟩ := pr
        simp only []
        obtain ⟨st2, hloop⟩ := stockDecrementLoop_total req.items
          (addOrder st
            { id := nextOrderId st, customerID := userID, status := .pending,
              totalAmount := totalAmount, subtotalAmount := totalAmount,
              taxAmount := 0, shippingAmount := 0, discountAmount := 0,
              paymentMethod := req.paymentMethod, createdAt := 0,
              orderItems := orderItems })
          (fun i hi => by
            rw [getProduct_addOrder]
            exact validateAndBuildItems_ok_products_exist st req.items
              orderItems totalAmount hv i hi)
        rw [hloop]
        simp [CreateOrderResult.isNilDereference]
  · with_unfolding_all decide

/-- Order line that `CreateOrder` builds for product a (fetched at id pid)
and quantity q: priced from the catalog, snapshotting the product fields. -/
def builtLine (a : Product) (pid : Nat) (q : Int) : OrderItem :=
  { productID := pid, quantity := q, unitPrice := a.price,
    totalPrice := a.price * (q : ℚ), productName := a.name,
    productSKU := a.sku, productDescription := a.description }

/-- Order that `CreateOrder` builds for the one-line request over state st. -/
def builtOrder (st : State) (userID : Nat) (pm : PaymentMethod)
    (a : Product) (pid : Nat) (q : Int) : Order :=
  { id := nextOrderId st, customerID := userID, status := .pending,
    totalAmount := a.price * (q : ℚ) + 0,
    subtotalAmount := a.price * (q : ℚ) + 0,
    taxAmount := 0, shippingAmount := 0, discountAmount := 0,
    paymentMethod := pm, createdAt := 0, orderItems := [builtLine a pid q] }

/-- C5: for a product with stock s and any requested quantity q at most s,
creating the one-line order decrements the product's stock to s - q, and
cancelling the resulting pending order as the owning customer succeeds,
increments the product's stock by the item's quantity — restoring exactly
the pre-order value s — and sets the order's status to cancelled. -/
theorem c5_cancel_restores_stock (st : State) (pid : Nat) (a : Product) (q : Int)
    (userID : Nat) (addr : String) (pm : PaymentMethod)
    (hp : getProduct st pid = some a) (hact : a.isActive = true)
    (hq : q ≤ a.stock) :
    ∃ st1 o,
      createOrder (fun _ => false) st
        { items := [{ productID := pid, quantity := q }],
          shippingAddress := addr, paymentMethod := pm } userID = .ok st1 o ∧
      o.status = .pending ∧ o.customerID = userID ∧
      getProduct st1 pid = some { a with stock := a.stock - q } ∧
      ∃ st2, cancelOrder st1 o.id userID .customer = (st2, .ok ()) ∧
        getProduct st2 pid = some a ∧
        getOrder st2 o.id = some { o with status := .cancelled } := by
  have hnlt : ¬(a.stock < q) := not_lt.mpr hq
  have hval : validateAndBuildItems st [{ productID := pid, quantity := q }] =
      .ok ([builtLine a pid q], a.price * (q : ℚ) + 0) := by
    unfold validateAndBuildItems
    rw [hp]
    simp only []
    rw [hact]
    simp only [Bool.not_true, Bool.false_eq_true, if_false]
    rw [if_neg hnlt]
    rfl
  have hfetch1 : getProduct (addOrder st (builtOrder st userID pm a pid q)) pid =
      some a := by
    rw [getProduct_addOrder]
    exact hp
  have hloop : stockDecrementLoop (fun _ => false)
      (addOrder st (builtOrder st userID pm a pid q))
      [{ productID := pid, quantity := q }] =
      .done (updateStock (addOrder st (builtOrder st userID pm a pid q)) pid
        (a.stock - q)) := by
    unfold stockDecrementLoop
    simp only [Bool.false_eq_true, if_false]
    rw [hfetch1]
    simp only []
    rfl
  have hco : createOrder (fun _ => false) st
      { items := [{ productID := pid, quantity := q }],
        shippingAddress := addr, paymentMethod := pm } userID =
      .ok (updateStock (addOrder st (builtOrder st userID pm a pid q)) pid
            (a.stock - q))
          (builtOrder st userID pm a pid q) := by
    unfold createOrder
    simp only [List.isEmpty_cons, Bool.false_eq_true, if_false]
    rw [hval]
    simp only []
    show (match stockDecrementLoop (fun _ => false)
        (addOrder st (builtOrder st userID pm a pid q))
        [{ productID := pid, quantity := q }] with
      | .done st2 => CreateOrderResult.ok st2 (builtOrder st userID pm a pid q)
      | .nilDereference => CreateOrderResult.nilDereference) = _
    rw [hloop]
  have hfresh : ∀ o' ∈ st.orders, o'.id ≠ nextOrderId st :=
    fun o' ho' => Nat.ne_of_lt (nextOrderId_fresh st o' ho')
  have hgo1 : getOrder (updateStock (addOrder st (builtOrder st userID pm a pid q))
        pid (a.stock - q)) (nextOrderId st) =
      some (builtOrder st userID pm a pid q) := by
    rw [getOrder_updateStock]
    exact getOrder_addOrder_fresh hfresh
  have hgp1 : getProduct (updateStock (addOrder st (builtOrder st userID pm a pid q))
        pid (a.stock - q)) pid = some { a with stock := a.stock - q } :=
    getProduct_updateStock_self _ hfetch1
  have hcancel : cancelOrder
      (updateStock (addOrder st (builtOrder st userID pm a pid q)) pid (a.stock - q))
      (nextOrderId st) userID .customer =
      (setOrderStatus
        (updateStock
          (updateStock (addOrder st (builtOrder st userID pm a pid q)) pid
            (a.stock - q))
          pid (a.stock - q + q))
        (nextOrderId st) .cancelled, .ok ()) := by
    unfold cancelOrder
    rw [hgo1]
    simp only []
    have hcust : (builtOrder st userID pm a pid q).customerID = userID := rfl
    have hstat : (builtOrder st userID pm a pid q).status = OrderStatus.pending := rfl
    rw [hcust, hstat]
    simp only [bne_self_eq_false, Bool.and_false, Bool.false_and,
      Bool.false_eq_true, if_false]
    have hres : restoreStock
        (updateStock (addOrder st (builtOrder st userID pm a pid q)) pid
          (a.stock - q))
        (builtOrder st userID pm a pid q).orderItems =
        updateStock
          (updateStock (addOrder st (builtOrder st userID pm a pid q)) pid
            (a.stock - q))
          pid (a.stock - q + q) := by
      show restoreStock _ [builtLine a pid q] = _
      unfold restoreStock
      have hpidl : (builtLine a pid q).productID = pid := rfl
      have hql : (builtLine a pid q).quantity = q := rfl
      rw [hpidl, hql, hgp1]
      simp only []
      rfl
    rw [hres]
  have hgp2 : getProduct
      (setOrderStatus
        (updateStock
          (updateStock (addOrder st (builtOrder st userID pm a pid q)) pid
            (a.stock - q))
          pid (a.stock - q + q))
        (nextOrderId st) .cancelled) pid = some a := by
    rw [getProduct_setOrderStatus]
    have h2 := getProduct_updateStock_self (a.stock - q + q) hgp1
    rw [h2]
    have hs : a.stock - q + q = a.stock := Int.sub_add_cancel a.stock q
    rw [hs]
  have hgo2 : getOrder
      (setOrderStatus
        (updateStock
          (updateStock (addOrder st (builtOrder st userID pm a pid q)) pid
            (a.stock - q))
          pid (a.stock - q + q))
        (nextOrderId st) .cancelled) (nextOrderId st) =
      some { builtOrder st userID pm a pid q with status := .cancelled } := by
    apply getOrder_setOrderStatus_self
    rw [getOrder_updateStock]
    exact hgo1
  exact ⟨_, _, hco, rfl, rfl, hgp1, _, hcancel, hgp2, hgo2⟩

/-- C5 witness: one widget bought by customer 3 from a stock of five; stock
drops to four and the customer's cancellation restores it to five. -/
theorem c5_witness :
    ∃ st1 o,
      createOrder (fun _ => false) stWidget
        { items := [{ productID := 1, quantity := 1 }],
          shippingAddress := "addr", paymentMethod := .card } 3 = .ok st1 o ∧
      o.status = .pending ∧ o.customerID = 3 ∧
      getProduct st1 1 = some { widget with stock := widget.stock - 1 } ∧
      ∃ st2, cancelOrder st1 o.id 3 .customer = (st2, .ok ()) ∧
        getProduct st2 1 = some widget ∧
        getOrder st2 o.id = some { o with status := .cancelled } :=
  c5_cancel_restores_stock stWidget 1 widget 1 3 "addr" .card (by decide) rfl
    (by decide)

/-- Store after payment confirms the widget order. -/
def stC7Confirmed : State :=
  { products := [{ widget with stock := 4 }],
    orders := [{ ordW with status := .confirmed }] }

/-- Store after the admin status update cancels the widget order. -/
def stC7Cancelled : State :=
  { products := [{ widget with stock := 4 }],
    orders := [{ ordW with status := .cancelled }] }

/-- C7 counterexample: in the end-to-end scenario (create an order for one
unit of the 10-unit-price widget with five in stock, pay, then have an admin
call `UpdateOrderStatus` to cancelled), the transition succeeds — but the
widget's stock is 4 at the end, not the 5 the claim asserts:
`UpdateOrderStatus` persists only the status and never restores stock. -/
theorem c7_counterexample :
    createOrder (fun _ => false) stWidget reqOne 3 = .ok stWidgetAfter ordW ∧
    ordW.totalAmount = 10 ∧ ordW.status = .pending ∧
    getProduct stWidgetAfter 1 = some { widget with stock := 4 } ∧
    processPayment gwOk stWidgetAfter 1 =
      (stC7Confirmed,
       .ok { transactionID := "pi_1", status := "confirmed", amount := 10 }) ∧
    updateOrderStatus stC7Confirmed 1 .cancelled 9 .admin =
      (stC7Cancelled, .ok ()) ∧
    ¬ getProduct stC7Cancelled 1 = some { widget with stock := 5 } := by
  with_unfolding_all decide

/-- C7 amended: the scenario's create and payment steps behave as claimed
(total 10, stock 4, pending, then confirmed), the admin `UpdateOrderStatus`
call to cancelled succeeds since confirmed-to-cancelled is in the table and
the order ends cancelled — but the stock stays at 4: restoration happens
only through `CancelOrder`, which this path never invokes. -/
theorem c7_amended :
    createOrder (fun _ => false) stWidget reqOne 3 = .ok stWidgetAfter ordW ∧
    ordW.totalAmount = 10 ∧ ordW.status = .pending ∧
    getProduct stWidgetAfter 1 = some { widget with stock := 4 } ∧
    processPayment gwOk stWidgetAfter 1 =
      (stC7Confirmed,
       .ok { transactionID := "pi_1", status := "confirmed", amount := 10 }) ∧
    getOrder stC7Confirmed 1 = some { ordW with status := .confirmed } ∧
    updateOrderStatus stC7Confirmed 1 .cancelled 9 .admin =
      (stC7Cancelled, .ok ()) ∧
    getOrder stC7Cancelled 1 = some { ordW with status := .cancelled } ∧
    getProduct stC7Cancelled 1 = some { widget with stock := 4 } := by
  with_unfolding_all decide

/-! Seller revenue scoping. -/

/-- Spec sections 4.5 and 8, written independently of the query: a seller's
revenue is the sum, over delivered orders, of the line totals (unit price
times quantity) of exactly those order items whose product belongs to that
seller; items of other sellers inside the same order contribute nothing,
and the order's own total is never used. -/
def revenueBySellerSpec (st : State) (sellerID : Nat) : ℚ :=
  (st.orders.map (fun o =>
    if o.status = .delivered then
      ((o.orderItems.filter (itemBelongsToSeller st sellerID)).map
        (fun item => item.unitPrice * (item.quantity : ℚ))).sum
    else 0)).sum

theorem foldl_add_eq_sum {α : Type} (f : α → ℚ) (l : List α) (init : ℚ) :
    l.foldl (fun acc x => acc + f x) init = init + (l.map f).sum := by
  induction l generalizing init with
  | nil => simp
  | cons a l ih => simp [ih, add_assoc]

theorem perOrder_rows_sum (st : State) (sellerID : Nat) (o : Order)
    (items : List OrderItem) :
    (((items.map (fun item => (o, item))).filter (fun r =>
        itemBelongsToSeller st sellerID r.2
        && r.1.status == OrderStatus.delivered
        && inDateRange none none r.1.createdAt)).map
      (fun r => r.2.unitPrice * (r.2.quantity : ℚ))).sum =
    if o.status = .delivered then
      ((items.filter (itemBelongsToSeller st sellerID)).map
        (fun item => item.unitPrice * (item.quantity : ℚ))).sum
    else 0 := by
  induction items with
  | nil => simp
  | cons i rest ih =>
    by_cases ho : o.status = .delivered
    · by_cases hb : itemBelongsToSeller st sellerID i = true
      · simp [List.filter_cons, ho, hb, inDateRange]
        simpa [ho, inDateRange] using ih
      · simp [List.filter_cons, ho, eq_false_of_ne_true hb, inDateRange]
        simpa [ho, inDateRange] using ih
    · have hbeq : (o.status == OrderStatus.delivered) = false := by
        simpa using ho
      simp [List.filter_cons, hbeq, ho, inDateRange]
      simpa [ho, inDateRange] using ih

theorem rows_sum_eq_orders_sum (st : State) (sellerID : Nat) (l : List Order) :
    (((l.flatMap (fun o => o.orderItems.map (fun item => (o, item)))).filter
        (fun r =>
          itemBelongsToSeller st sellerID r.2
          && r.1.status == OrderStatus.delivered
          && inDateRange none none r.1.createdAt)).map
      (fun r => r.2.unitPrice * (r.2.quantity : ℚ))).sum =
    (l.map (fun o =>
      if o.status = .delivered then
        ((o.orderItems.filter (itemBelongsToSeller st sellerID)).map
          (fun item => item.unitPrice * (item.quantity : ℚ))).sum
      else 0)).sum := by
  induction l with
  | nil => simp
  | cons o rest ih =>
    simp only [List.flatMap_cons, List.filter_append, List.map_append,
      List.sum_append, List.map_cons, List.sum_cons]
    rw [perOrder_rows_sum, ih]

/-- A second product owned by a different seller (4), for the two-seller
scenario. -/
def gadget : Product :=
  { id := 2, name := "Gadget", sku := "G-1", description := "A gadget",
    price := 7, stock := 5, isActive := true, sellerID := 4 }

/-- A delivered order holding two widgets (seller 2, line total 20) and one
gadget (seller 4, line total 7); the order total is 27. -/
def twoSellerOrder : Order :=
  { id := 1, customerID := 3, status := .delivered, totalAmount := 27,
    subtotalAmount := 27, taxAmount := 0, shippingAmount := 0,
    discountAmount := 0, paymentMethod := .card, createdAt := 0,
    orderItems := [{ productID := 1, quantity := 2, unitPrice := 10,
                     totalPrice := 20, productName := "Widget",
                     productSKU := "W-1", productDescription := "A widget" },
                   { productID := 2, quantity := 1, unitPrice := 7,
                     totalPrice := 7, productName := "Gadget",
                     productSKU := "G-1", productDescription := "A gadget" }] }

/-- Store for the two-seller scenario. -/
def stTwoSellers : State :=
  { products := [widget, gadget], orders := [twoSellerOrder] }

/-- C8 (code bug): the revenue query's SELECT references
`order_items.price`, a column the schema does not define (migration 004 and
the `OrderItem` model spell it `unit_price`), so every seller-scoped
revenue call fails with undefined_column — on the two-seller store
included — and no scoped sum is ever returned.  The claim is right about
the query's intent: with the line-price column reading the `unit_price`
the schema defines, the row pipeline's sum equals the independently stated
spec definition — only the owning seller's line items count — crediting 20
and 7 to the two sellers of the 27-total delivered order, never the full
order total. -/
theorem c8_revenue_query_undefined_column :
    (∀ (st : State) (sellerID : Nat) (sd ed : Option Int),
      getRevenueBySellerID st sellerID sd ed =
        .error (.undefinedColumn "order_items.price")) ∧
    getOrderAnalytics stTwoSellers (some 2) none none =
      .error (.undefinedColumn "order_items.price") ∧
    (∀ (st : State) (sellerID : Nat),
      sellerItemsRevenueSum st sellerID none none =
        revenueBySellerSpec st sellerID) ∧
    sellerItemsRevenueSum stTwoSellers 2 none none = 20 ∧
    sellerItemsRevenueSum stTwoSellers 4 none none = 7 ∧
    twoSellerOrder.totalAmount = 27 := by
  have herr : ∀ (st : State) (sellerID : Nat) (sd ed : Option Int),
      getRevenueBySellerID st sellerID sd ed =
        .error (.undefinedColumn "order_items.price") := by
    intro st sellerID sd ed
    unfold getRevenueBySellerID
    rw [if_neg (by decide)]
  have hmain : ∀ (st : State) (sellerID : Nat),
      sellerItemsRevenueSum st sellerID none none =
        revenueBySellerSpec st sellerID := by
    intro st sellerID
    unfold sellerItemsRevenueSum revenueBySellerSpec orderItemsTable
    rw [foldl_add_eq_sum
      (f := fun (r : Order × OrderItem) => r.2.unitPrice * (r.2.quantity : ℚ)), zero_add]
    exact rows_sum_eq_orders_sum st sellerID st.orders
  refine ⟨herr, ?_, hmain, ?_, ?_, rfl⟩
  · unfold getOrderAnalytics
    simp only []
    rw [herr stTwoSellers 2 none none]
  · rw [hmain]
    with_unfolding_all decide
  · rw [hmain]
    with_unfolding_all decide

/-- Order stuck in processing, for the analytics status-count scenario. -/
def procOrder : Order :=
  { id := 1, customerID := 3, status := .processing, totalAmount := 0,
    subtotalAmount := 0, taxAmount := 0, shippingAmount := 0,
    discountAmount := 0, paymentMethod := .card, createdAt := 0,
    orderItems := [] }

/-- Refunded order, for the analytics status-count scenario. -/
def refundedOrder : Order := { procOrder with id := 2, status := .refunded }

/-- Store holding one processing and one refunded order. -/
def stProcRef : State := { products := [], orders := [procOrder, refundedOrder] }

/-- C10 (code bug): a seller-scoped `GetOrderAnalytics` call always
propagates the revenue query's undefined-column error — a date-bounded call
on the processing-plus-refunded store included — and returns no analytics
record, so the counts the claim describes are never returned on that path.
The claim is right about the count computation the code performs once the
revenue step succeeds: the unscoped path returns the payload whose total
and per-status counts are computed over all orders of all sellers with no
date condition, and the payload has a count only for pending, confirmed,
shipped, delivered and cancelled — the store holding one processing and one
refunded order reports two total orders and zero for all five per-status
counts. -/
theorem c10_analytics_seller_scoped_errors :
    (∀ (st : State) (sellerID : Nat) (sd ed : Option Int),
      getOrderAnalytics st (some sellerID) sd ed =
        .error (.undefinedColumn "order_items.price")) ∧
    getOrderAnalytics stProcRef (some 1) (some 100) (some 200) =
      .error (.undefinedColumn "order_items.price") ∧
    (∀ (st : State) (sd ed : Option Int),
      getOrderAnalytics st none sd ed =
        .ok { totalRevenue := getTotalRevenue st sd ed,
              totalOrders := st.orders.length,
              pendingOrders :=
                (st.orders.filter (fun o => o.status == OrderStatus.pending)).length,
              confirmedOrders :=
                (st.orders.filter (fun o => o.status == OrderStatus.confirmed)).length,
              shippedOrders :=
                (st.orders.filter (fun o => o.status == OrderStatus.shipped)).length,
              deliveredOrders :=
                (st.orders.filter (fun o => o.status == OrderStatus.delivered)).length,
              cancelledOrders :=
                (st.orders.filter (fun o => o.status == OrderStatus.cancelled)).length }) ∧
    getOrderAnalytics stProcRef none (some 100) (some 200) =
      .ok { totalRevenue := 0, totalOrders := 2, pendingOrders := 0,
            confirmedOrders := 0, shippedOrders := 0, deliveredOrders := 0,
            cancelledOrders := 0 } := by
  have herr : ∀ (st : State) (sellerID : Nat) (sd ed : Option Int),
      getOrderAnalytics st (some sellerID) sd ed =
        .error (.undefinedColumn "order_items.price") := by
    intro st sellerID sd ed
    unfold getOrderAnalytics getRevenueBySellerID
    simp only []
    rw [if_neg (by decide)]
  exact ⟨herr, herr stProcRef 1 (some 100) (some 200),
    fun st sd ed => rfl, by with_unfolding_all decide⟩

end Ecommerce
